import Mathlib

/-!
Shallow embedding of the healthcare web application (`src/App.py`) and
verification of its specification claims.

The application is a CRUD system over four SQLite tables (users,
appointments, reminders, profiles) plus a pass-through call to an external
text-generation model.  We embed:

* the Python `datetime`/`pytz` operations used by `book_appointment` and
  `set_medicine_reminder` (proleptic Gregorian calendar arithmetic; the
  timezone `Asia/Kolkata` is modelled with its modern fixed offset of
  +05:30, which the tz database assigns to every date the application can
  produce; Python's `datetime.astimezone` interprets a *naive* datetime in
  the *system* local timezone, which we model as an explicit parameter);
* `datetime.isoformat()` string rendering;
* the fragment of SQLite's `datetime()` text function exercised by the
  application (parsing the exact shape `YYYY-MM-DDTHH:MM:SS±HH:MM` that
  `isoformat()` emits, converting to UTC and re-rendering as
  `YYYY-MM-DD HH:MM:SS`; any other shape yields `none`, standing for SQL
  NULL);
* the four tables and every query the application issues against them,
  with `ORDER BY` modelled as a stable insertion sort on the SQL sort key;
* `bcrypt` as an opaque pair of hash/verify functions (a parameter of the
  operations that use it, as the specification directs);
* the text-generation pipeline as an opaque function that either returns
  text or raises (an `Except` parameter).
-/

/-! ### Gregorian calendar arithmetic (Python `datetime` clock values) -/

/-- Days since 0000-03-01 of the proleptic Gregorian date `(y, m, d)`
(civil-from-days companion below inverts it for valid dates). -/
def daysFromCivil (y m d : Nat) : Nat :=
  let y' := if m ≤ 2 then y - 1 else y
  let era := y' / 400
  let yoe := y' % 400
  let mp := (m + 9) % 12
  let doy := (153 * mp + 2) / 5 + d - 1
  let doe := yoe * 365 + yoe / 4 - yoe / 100 + doy
  era * 146097 + doe

/-- Inverse of `daysFromCivil`: the proleptic Gregorian date of day `z`
(counted from 0000-03-01). -/
def civilFromDays (z : Nat) : Nat × Nat × Nat :=
  let era := z / 146097
  let doe := z % 146097
  let yoe := (doe - doe / 1460 + doe / 36524 - doe / 146096) / 365
  let y' := yoe + era * 400
  let doy := doe - (365 * yoe + yoe / 4 - yoe / 100)
  let mp := (5 * doy + 2) / 153
  let d := doy - (153 * mp + 2) / 5 + 1
  let m := if mp < 10 then mp + 3 else mp - 9
  (if m ≤ 2 then y' + 1 else y', m, d)

/-- A timezone-unaware Python `datetime` value (microseconds are always 0
in this application, so they are omitted). -/
structure NaiveDT where
  year : Nat
  month : Nat
  day : Nat
  hour : Nat
  minute : Nat
  second : Nat
  deriving DecidableEq

/-- Minutes since 0000-03-01 00:00 of the clock value (seconds excluded:
every timezone offset the application handles is a whole number of
minutes, so seconds ride along unchanged). -/
def NaiveDT.toMinutes (c : NaiveDT) : Nat :=
  daysFromCivil c.year c.month c.day * 1440 + c.hour * 60 + c.minute

/-- Rebuild a clock value from minutes since 0000-03-01 00:00, keeping the
given seconds field. -/
def NaiveDT.ofMinutes (n : Nat) (sec : Nat) : NaiveDT :=
  let ymd := civilFromDays (n / 1440)
  ⟨ymd.1, ymd.2.1, ymd.2.2, n % 1440 / 60, n % 60, sec⟩

/-- Shift a clock value by `delta` minutes (Python datetime arithmetic as
performed by `astimezone`). -/
def NaiveDT.shift (c : NaiveDT) (delta : Int) : NaiveDT :=
  NaiveDT.ofMinutes (((c.toMinutes : Int) + delta).toNat) c.second

/-- A timezone-aware Python `datetime`: a clock value plus a UTC offset in
minutes. -/
structure AwareDT where
  clock : NaiveDT
  offset : Int
  deriving DecidableEq

/-- A Python `datetime` argument: either naive (`tzinfo is None`) or
aware. -/
inductive PyDateTime
  | naive (c : NaiveDT)
  | aware (a : AwareDT)
  deriving DecidableEq

/-- UTC offset of `Asia/Kolkata` in minutes (+05:30), the fixed default
timezone of the application. -/
def kolkataOffset : Int := 330

/-- `pytz.timezone('Asia/Kolkata').localize(c)`: attach the IST offset to
a naive clock value without changing the clock fields. -/
def pytzLocalizeKolkata (c : NaiveDT) : AwareDT := ⟨c, kolkataOffset⟩

/-- Python `aware.astimezone(tz)` for an aware value: keep the instant,
move the clock to the target offset. -/
def pyAstimezoneAware (target : Int) (a : AwareDT) : AwareDT :=
  ⟨a.clock.shift (target - a.offset), target⟩

/-- Python `dt.astimezone(tz)`: a *naive* `dt` is interpreted in the
system local timezone (`sysOffset`, in minutes) — not in any fixed
default — then converted; an aware `dt` is converted from its own
offset. -/
def pyAstimezone (sysOffset target : Int) : PyDateTime → AwareDT
  | .naive c => ⟨c.shift (target - sysOffset), target⟩
  | .aware a => pyAstimezoneAware target a

/-! ### `isoformat()` and SQLite `datetime()` rendering -/

/-- The decimal digit character for `n < 10`. -/
def digitChar (n : Nat) : Char := Char.ofNat (48 + n)

/-- Two-digit zero-padded rendering (`n < 100`). -/
def pad2 (n : Nat) : List Char := [digitChar (n / 10), digitChar (n % 10)]

/-- Four-digit zero-padded rendering (`n < 10000`). -/
def pad4 (n : Nat) : List Char := pad2 (n / 100) ++ pad2 (n % 100)

/-- `YYYY-MM-DD` characters of a clock value. -/
def dateChars (c : NaiveDT) : List Char :=
  pad4 c.year ++ '-' :: (pad2 c.month ++ '-' :: pad2 c.day)

/-- `HH:MM:SS` characters of a clock value. -/
def timeChars (c : NaiveDT) : List Char :=
  pad2 c.hour ++ ':' :: (pad2 c.minute ++ ':' :: pad2 c.second)

/-- `±HH:MM` characters of a UTC offset in minutes. -/
def offsetChars (off : Int) : List Char :=
  if off < 0 then '-' :: (pad2 ((-off).toNat / 60) ++ ':' :: pad2 ((-off).toNat % 60))
  else '+' :: (pad2 (off.toNat / 60) ++ ':' :: pad2 (off.toNat % 60))

/-- Characters of Python `aware.isoformat()`:
`YYYY-MM-DDTHH:MM:SS±HH:MM` (microseconds are 0 hence omitted by
Python). -/
def isoChars (a : AwareDT) : List Char :=
  dateChars a.clock ++ 'T' :: (timeChars a.clock ++ offsetChars a.offset)

/-- Python `aware.isoformat()` as a string. -/
def AwareDT.isoformat (a : AwareDT) : String := String.mk (isoChars a)

/-- Characters of SQLite's `datetime()` output `YYYY-MM-DD HH:MM:SS`. -/
def sqlKeyChars (c : NaiveDT) : List Char :=
  dateChars c ++ ' ' :: timeChars c

/-- Number denoted by a list of decimal digit characters. -/
def digitsToNat (cs : List Char) : Nat :=
  cs.foldl (fun a c => a * 10 + (c.toNat - 48)) 0

/-- Days of month `m` of year `y` in the proleptic Gregorian calendar. -/
def daysInMonth (y m : Nat) : Nat :=
  if m = 2 then
    if y % 4 = 0 ∧ (y % 100 ≠ 0 ∨ y % 400 = 0) then 29 else 28
  else if m = 4 ∨ m = 6 ∨ m = 9 ∨ m = 11 then 30
  else 31

/-- The clock value denotes a real calendar date-time that `isoformat`
renders canonically (year in range for 4-digit rendering). -/
def NaiveDT.valid (c : NaiveDT) : Bool :=
  1 ≤ c.year && c.year ≤ 9999 && 1 ≤ c.month && c.month ≤ 12 &&
    1 ≤ c.day && c.day ≤ daysInMonth c.year c.month &&
    c.hour < 24 && c.minute < 60 && c.second < 60

/-- Parse the exact text shape `isoformat()` produces for whole-minute
offsets: `YYYY-MM-DDTHH:MM:SS±HH:MM`, validating digits and field ranges.
This is the only shape the application ever stores; other SQLite
`datetime()` input formats are outside the model and yield `none`. -/
def parseISO (s : String) : Option (NaiveDT × Int) :=
  match s.data with
  | [y1, y2, y3, y4, '-', m1, m2, '-', d1, d2, 'T',
     h1, h2, ':', mi1, mi2, ':', s1, s2, sg, o1, o2, ':', o3, o4] =>
    if ([y1, y2, y3, y4, m1, m2, d1, d2, h1, h2, mi1, mi2, s1, s2,
         o1, o2, o3, o4].all Char.isDigit ∧ (sg = '+' ∨ sg = '-')) then
      let c : NaiveDT :=
        ⟨digitsToNat [y1, y2, y3, y4], digitsToNat [m1, m2],
         digitsToNat [d1, d2], digitsToNat [h1, h2],
         digitsToNat [mi1, mi2], digitsToNat [s1, s2]⟩
      let offAbs : Nat := digitsToNat [o1, o2] * 60 + digitsToNat [o3, o4]
      let off : Int := if sg = '-' then -(offAbs : Int) else (offAbs : Int)
      if c.valid then some (c, off) else none
    else none
  | _ => none

/-- SQLite's `datetime(X)` on the texts this application stores: parse,
convert the clock to UTC, render as `YYYY-MM-DD HH:MM:SS`; `none` is SQL
NULL.  (A zero offset is already UTC, so the clock is returned as-is; a
nonzero offset is subtracted from the clock.) -/
def sqliteDatetime (s : String) : Option String :=
  match parseISO s with
  | some (c, off) => some (String.mk (sqlKeyChars (if off = 0 then c else c.shift (-off))))
  | none => none

/-- The string is exactly what `book_appointment` stores: the
`isoformat()` rendering, with offset `+00:00`, of a valid clock value
(checked by parsing and re-rendering). -/
def isCanonicalUTC (s : String) : Bool :=
  match parseISO s with
  | some (c, off) => off == 0 && s == AwareDT.isoformat ⟨c, 0⟩
  | none => false


/-! ### Database model

SQLite tables as lists of rows plus `AUTOINCREMENT` counters.  Query and
mutation functions mirror the SQL statements `App.py` issues one-for-one.
-/

/-- A row of the `users` table (`password` holds the opaque bcrypt hash). -/
structure UserRow where
  id : Nat
  username : String
  password : String
  email : String
  deriving DecidableEq

/-- A row of the `appointments` table. -/
structure ApptRow where
  id : Nat
  patient_name : String
  doctor_name : String
  appointment_datetime : String
  deriving DecidableEq

/-- A row of the `reminders` table (`sent INTEGER DEFAULT 0`). -/
structure RemRow where
  id : Nat
  patient_name : String
  medication : String
  reminder_time : String
  sent : Bool
  deriving DecidableEq

/-- A row of the `profiles` table; columns not named by an insert are SQL
NULL, modelled as `none`. -/
structure ProfileRow where
  id : Nat
  username : String
  full_name : Option String
  age : Option Nat
  medical_history : Option String
  allergies : Option String
  medications : Option String
  blood_type : Option String
  height : Option Nat
  weight : Option Nat
  profile_picture : Option (List Nat)
  deriving DecidableEq

/-- The whole database. -/
structure DB where
  users : List UserRow
  nextUserId : Nat
  appointments : List ApptRow
  nextApptId : Nat
  reminders : List RemRow
  nextRemId : Nat
  profiles : List ProfileRow
  nextProfileId : Nat
  deriving DecidableEq

/-- A freshly created database (`AUTOINCREMENT` ids start at 1). -/
def emptyDB : DB := ⟨[], 1, [], 1, [], 1, [], 1⟩

/-- `bcrypt` as the opaque hash/verify pair the specification prescribes:
`hashpw password salt` and `checkpw password hash`. -/
structure Bcrypt where
  hashpw : String → String → String
  checkpw : String → String → Bool

/-! ### Credential store (`signup`, `login`) -/

/-- Status string of `signup`'s invalid-username branch (`InvalidFormat`). -/
def msgInvalidUsername : String := "❌ Invalid username (3-20 chars, alphanumeric)"

/-- Status string of `signup`'s success branch. -/
def msgSignupSuccess : String := "✅ Signup successful!"

/-- Status string of `signup`'s `IntegrityError` branch
(`DuplicateUsername`). -/
def msgDuplicateUsername : String := "❌ Username already exists!"

/-- Status string of `login`'s success branch. -/
def msgLoginSuccess : String := "✅ Login successful!"

/-- Status string of `login`'s failure branch (`InvalidCredentials`). -/
def msgInvalidCredentials : String := "❌ Invalid credentials"

/-- `[A-Za-z0-9_]`. -/
def isWordChar (c : Char) : Bool :=
  ('A' ≤ c && c ≤ 'Z') || ('a' ≤ c && c ≤ 'z') || ('0' ≤ c && c ≤ '9') || c == '_'

/-- The whole character list consists of 3 to 20 word characters. -/
def usernameCore (cs : List Char) : Bool :=
  3 ≤ cs.length && cs.length ≤ 20 && cs.all isWordChar

/-- Python `re.match(r"^[A-Za-z0-9_]{3,20}$", u)` succeeds: either the
whole string is 3–20 word characters, or all but a single trailing
newline is (Python's `$` also matches just before a final `'\n'`). -/
def pyMatchUsername (u : String) : Bool :=
  usernameCore u.data ||
    (match u.data.getLast? with
     | some '\n' => usernameCore u.data.dropLast
     | _ => false)

/-- `signup(username, password, email)` from `App.py`: regex check, then
`INSERT INTO users` (the UNIQUE constraint on `username` raises
`IntegrityError`, caught and reported as a duplicate). `salt` stands for
the fresh salt `bcrypt.gensalt()` returned during this call. -/
def signup (bc : Bcrypt) (salt : String) (db : DB)
    (username password email : String) : String × DB :=
  if !pyMatchUsername username then (msgInvalidUsername, db)
  else if db.users.any (fun r => r.username == username) then (msgDuplicateUsername, db)
  else
    let hashed := bc.hashpw password salt
    (msgSignupSuccess,
     { db with
        users := db.users ++ [⟨db.nextUserId, username, hashed, email⟩],
        nextUserId := db.nextUserId + 1 })

/-- `login(username, password)` from `App.py`: fetch the user's stored
hash and verify with `bcrypt.checkpw`. -/
def login (bc : Bcrypt) (db : DB) (username password : String) : String :=
  match db.users.find? (fun r => r.username == username) with
  | some r => if bc.checkpw password r.password then msgLoginSuccess else msgInvalidCredentials
  | none => msgInvalidCredentials

/-! ### Appointment ledger -/

/-- Status string of `book_appointment`'s success branch. -/
def msgAppointmentBooked : String := "✅ Appointment booked!"

/-- Status string of `delete_appointment`'s success branch. -/
def msgAppointmentDeleted : String := "✅ Appointment deleted!"

/-- `book_appointment` from `App.py`: a naive datetime is localized to
`Asia/Kolkata` by `pytz` (never to the system timezone), then the value
is converted to UTC and stored as `isoformat()` text. -/
def book_appointment (db : DB) (patient_name doctor_name : String)
    (appointment_datetime : PyDateTime) : String × DB :=
  let aware := match appointment_datetime with
    | .naive c => pytzLocalizeKolkata c
    | .aware a => a
  let utc_time := pyAstimezoneAware 0 aware
  (msgAppointmentBooked,
   { db with
      appointments :=
        db.appointments ++ [⟨db.nextApptId, patient_name, doctor_name, utc_time.isoformat⟩],
      nextApptId := db.nextApptId + 1 })

/-- `delete_appointment` from `App.py`: `DELETE FROM appointments WHERE
id = ?` — removes the matching rows, succeeds whether or not any row
matched. -/
def delete_appointment (db : DB) (appointment_id : Nat) : String × DB :=
  (msgAppointmentDeleted,
   { db with appointments := db.appointments.filter (fun r => r.id != appointment_id) })

/-! ### Reminder ledger -/

/-- Status string of `set_medicine_reminder`'s success branch. -/
def msgReminderSet : String := "✅ Medicine reminder set!"

/-- Status string of `delete_medicine_reminder`'s success branch. -/
def msgReminderDeleted : String := "✅ Medicine reminder deleted!"

/-- `set_medicine_reminder` from `App.py`: `reminder_time.astimezone(
timezone('Asia/Kolkata'))` — for a *naive* argument Python interprets the
clock in the system local timezone (`sysOffset`), then converts to IST;
the IST `isoformat()` text is stored and `sent` defaults to false. -/
def set_medicine_reminder (sysOffset : Int) (db : DB)
    (patient_name medication : String) (reminder_time : PyDateTime) : String × DB :=
  let india_time := pyAstimezone sysOffset kolkataOffset reminder_time
  (msgReminderSet,
   { db with
      reminders :=
        db.reminders ++ [⟨db.nextRemId, patient_name, medication, india_time.isoformat, false⟩],
      nextRemId := db.nextRemId + 1 })

/-- `delete_medicine_reminder` from `App.py`: `DELETE FROM reminders
WHERE id = ?`. -/
def delete_medicine_reminder (db : DB) (reminder_id : Nat) : String × DB :=
  (msgReminderDeleted,
   { db with reminders := db.reminders.filter (fun r => r.id != reminder_id) })

/-! ### List queries (`SELECT ... WHERE patient_name = ? ORDER BY ...`) -/

/-- Lexicographic strict comparison of character lists by codepoint —
SQLite's memcmp text ordering (memcmp on UTF-8 bytes coincides with
codepoint order). -/
def charListLtb : List Char → List Char → Bool
  | [], [] => false
  | [], _ :: _ => true
  | _ :: _, [] => false
  | a :: as, b :: bs => if a < b then true else if b < a then false else charListLtb as bs

/-- SQLite text `s <= t` (BINARY collation). -/
def strLeb (s t : String) : Bool := !(charListLtb t.data s.data)

/-- Ascending `ORDER BY` comparison on a possibly-NULL key: SQL NULLs
sort first in SQLite. -/
def optKeyLeb : Option String → Option String → Bool
  | none, _ => true
  | some _, none => false
  | some a, some b => strLeb a b

/-- Row order of `ORDER BY datetime(appointment_datetime)`. -/
def apptRel (a b : ApptRow) : Prop :=
  optKeyLeb (sqliteDatetime a.appointment_datetime) (sqliteDatetime b.appointment_datetime) = true

instance : DecidableRel apptRel :=
  fun _ _ => inferInstanceAs (Decidable (_ = true))

/-- The appointment rows the list query returns for a patient, in query
order (a stable sort on the SQL key). -/
def listAppointmentsRows (db : DB) (patient : String) : List ApptRow :=
  List.insertionSort apptRel (db.appointments.filter (fun r => r.patient_name == patient))

/-- `SELECT id, doctor_name, datetime(appointment_datetime) FROM
appointments WHERE patient_name = ? ORDER BY
datetime(appointment_datetime)`. -/
def list_appointments (db : DB) (patient : String) : List (Nat × String × Option String) :=
  (listAppointmentsRows db patient).map
    (fun r => (r.id, r.doctor_name, sqliteDatetime r.appointment_datetime))

/-- Row order of `ORDER BY reminder_time` (plain text comparison). -/
def remRel (a b : RemRow) : Prop := strLeb a.reminder_time b.reminder_time = true

instance : DecidableRel remRel :=
  fun _ _ => inferInstanceAs (Decidable (_ = true))

/-- The reminder rows the list query returns for a patient, in query
order. -/
def listRemindersRows (db : DB) (patient : String) : List RemRow :=
  List.insertionSort remRel (db.reminders.filter (fun r => r.patient_name == patient))

/-- `SELECT id, medication, reminder_time FROM reminders WHERE
patient_name = ? ORDER BY reminder_time`. -/
def list_reminders (db : DB) (patient : String) : List (Nat × String × String) :=
  (listRemindersRows db patient).map (fun r => (r.id, r.medication, r.reminder_time))

/-! ### Profile store -/

/-- Picture upload: `INSERT OR REPLACE INTO profiles (username,
profile_picture) VALUES (?, ?)` — the conflicting row (UNIQUE username)
is deleted, and a whole new row is inserted in which every column not
named in the statement is NULL. -/
def upsert_profile_picture (db : DB) (username : String) (picture : List Nat) : DB :=
  { db with
     profiles :=
       db.profiles.filter (fun r => r.username != username) ++
         [⟨db.nextProfileId, username, none, none, none, none, none, none, none, none,
           some picture⟩],
     nextProfileId := db.nextProfileId + 1 }

/-- Profile form save: `INSERT OR REPLACE INTO profiles (username,
full_name, age, medical_history, allergies, medications, blood_type,
height, weight) VALUES (...)` — replaces the whole row; `profile_picture`
is not named, hence NULL in the new row. -/
def upsert_profile_form (db : DB) (username full_name : String) (age : Nat)
    (medical_history allergies medications blood_type : String)
    (height weight : Nat) : DB :=
  { db with
     profiles :=
       db.profiles.filter (fun r => r.username != username) ++
         [⟨db.nextProfileId, username, some full_name, some age, some medical_history,
           some allergies, some medications, some blood_type, some height, some weight,
           none⟩],
     nextProfileId := db.nextProfileId + 1 }

/-- `get_profile_picture` from `App.py`: the source guards with Python
truthiness (`if result and result[0]`), so it returns the stored bytes
only when a row exists and the picture column is a *non-empty* blob;
a NULL column or the empty blob yields `None`. -/
def get_profile_picture (db : DB) (username : String) : Option (List Nat) :=
  match db.profiles.find? (fun r => r.username == username) with
  | some r =>
    match r.profile_picture with
    | some pic => if pic = [] then none else some pic
    | none => none
  | none => none

/-! ### Assistant gateway -/

/-- The fixed disclaimer string of `healthcare_chatbot`. -/
def disclaimer : String := "⚠️ This is not medical advice."

/-- `healthcare_chatbot` from `App.py`.  The external text-generation
pipeline is an opaque function that either returns generated text or
raises (`Except.error` carries `str(e)`).  The `except` branch returns
`f"Error: {str(e)}"` as the response — the function itself never
raises (it is total). -/
def healthcare_chatbot (chatbot : String → Except String String) (user_input : String) : String :=
  match chatbot user_input with
  | .ok response => response ++ "\n\n⚠️ " ++ disclaimer
  | .error e => "Error: " ++ e

/-! ### Specification-side definitions and concrete fixtures -/

/-- Modelled from the spec wording of claim C1 (refinement target): a
naive timestamp is "interpreted as being in the fixed default timezone
Asia/Kolkata (UTC+5:30) and then converted to UTC as an ISO-8601
string" — i.e. the clock moved back by 5 h 30 min and rendered with
offset `+00:00`. -/
def specNaiveBookingUTC (c : NaiveDT) : String :=
  AwareDT.isoformat ⟨c.shift (-330), 0⟩

/-- A concrete hash/verify pair satisfying the opaque-one-way-function
interface, used to instantiate witnesses: the "hash" is the password
itself and verification is equality. -/
def idBcrypt : Bcrypt := ⟨fun pw _ => pw, fun pw h => pw == h⟩

/-- Fixture: a database with one appointment and one reminder, for
delete witnesses. -/
def dbFixtureDelete : DB :=
  { emptyDB with
     appointments := [⟨1, "pat", "Dr. Smith (Cardiology)", "2025-06-01T04:30:00+00:00"⟩],
     nextApptId := 2,
     reminders := [⟨1, "pat", "aspirin", "2025-06-01T10:00:00+05:30", false⟩],
     nextRemId := 2 }

/-- Fixture: a database whose appointments and reminders were inserted in
descending time order, for the sortedness witness. -/
def dbFixtureSort : DB :=
  { emptyDB with
     appointments :=
       [⟨1, "pat", "Dr. Smith (Cardiology)", "2025-06-02T04:30:00+00:00"⟩,
        ⟨2, "pat", "Dr. Jones (Pediatrics)", "2025-06-01T04:30:00+00:00"⟩],
     nextApptId := 3,
     reminders :=
       [⟨1, "pat", "aspirin", "2025-06-02T10:00:00+05:30", false⟩,
        ⟨2, "pat", "ibuprofen", "2025-06-01T10:00:00+05:30", false⟩],
     nextRemId := 3 }

/-- Fixture: a database with one fully filled profile row, for the
profile-clobbering witness. -/
def dbFixtureProfile : DB :=
  { emptyDB with
     profiles :=
       [⟨1, "alice", some "Alice A", some 30, some "none", some "pollen", some "aspirin",
         some "O+", some 170, some 60, some [1, 2, 3]⟩],
     nextProfileId := 2 }


/-! ### Helper lemmas -/

theorem signup_eq_invalid (bc : Bcrypt) (salt : String) (db : DB) (u p e : String)
    (h : pyMatchUsername u = false) :
    signup bc salt db u p e = (msgInvalidUsername, db) := by
  simp only [signup]
  rw [h]
  rfl

theorem signup_eq_duplicate (bc : Bcrypt) (salt : String) (db : DB) (u p e : String)
    (h1 : pyMatchUsername u = true)
    (h2 : db.users.any (fun r => r.username == u) = true) :
    signup bc salt db u p e = (msgDuplicateUsername, db) := by
  simp only [signup]
  rw [h1, h2]
  rfl

theorem signup_eq_success (bc : Bcrypt) (salt : String) (db : DB) (u p e : String)
    (h1 : pyMatchUsername u = true)
    (h2 : db.users.any (fun r => r.username == u) = false) :
    signup bc salt db u p e =
      (msgSignupSuccess,
       { db with
          users := db.users ++ [⟨db.nextUserId, u, bc.hashpw p salt, e⟩],
          nextUserId := db.nextUserId + 1 }) := by
  simp only [signup]
  rw [h1, h2]
  rfl

theorem signup_success_inv (bc : Bcrypt) (salt : String) (db : DB) (u p e : String)
    (hsucc : (signup bc salt db u p e).1 = msgSignupSuccess) :
    pyMatchUsername u = true ∧
    db.users.any (fun r => r.username == u) = false ∧
    (signup bc salt db u p e).2.users =
      db.users ++ [⟨db.nextUserId, u, bc.hashpw p salt, e⟩] := by
  by_cases h1 : pyMatchUsername u = true
  · by_cases h2 : db.users.any (fun r => r.username == u) = true
    · rw [signup_eq_duplicate bc salt db u p e h1 h2] at hsucc
      replace hsucc : msgDuplicateUsername = msgSignupSuccess := hsucc
      exact absurd hsucc (by decide)
    · rw [Bool.not_eq_true] at h2
      refine ⟨h1, h2, ?_⟩
      rw [signup_eq_success bc salt db u p e h1 h2]
  · rw [Bool.not_eq_true] at h1
    rw [signup_eq_invalid bc salt db u p e h1] at hsucc
    replace hsucc : msgInvalidUsername = msgSignupSuccess := hsucc
    exact absurd hsucc (by decide)

theorem users_find?_eq_none_of_any_eq_false {l : List UserRow} {u : String}
    (h : l.any (fun r => r.username == u) = false) :
    l.find? (fun r => r.username == u) = none := by
  rw [List.find?_eq_none]
  intro x hx hxu
  have : l.any (fun r => r.username == u) = true := List.any_eq_true.mpr ⟨x, hx, hxu⟩
  rw [h] at this
  exact absurd this (by decide)

/-! ### Claim C3 -/

/-- C3: for every username that fails the regular expression
`[A-Za-z0-9_]` of length 3–20 (Python `re.match` semantics), `signup`
returns the invalid-format status and leaves the whole store
unchanged. -/
theorem c3_signup_invalid_format (bc : Bcrypt) (salt : String) (db : DB)
    (u p e : String) (h : pyMatchUsername u = false) :
    signup bc salt db u p e = (msgInvalidUsername, db) := by
  simp [signup, h]

/-- Witness for C3 at the concrete malformed username `"a!"`. -/
theorem c3_signup_invalid_format_witness :
    pyMatchUsername "a!" = false ∧
      signup idBcrypt "s" emptyDB "a!" "pw" "a@b.c" = (msgInvalidUsername, emptyDB) :=
  ⟨by decide, c3_signup_invalid_format idBcrypt "s" emptyDB "a!" "pw" "a@b.c" (by decide)⟩

/-! ### Claim C4 -/

/-- C4: after a successful `signup(u, p, e)`, `login(u, p)` succeeds and
`login(u, wrongPassword)` fails with the invalid-credentials status, for
any hash/verify pair satisfying the opaque one-way-function interface
(verification succeeds on the hashed password and only on it). -/
theorem c4_register_then_authenticate (bc : Bcrypt) (salt : String) (db : DB)
    (u p e wrongPassword : String)
    (hck : ∀ pw s, bc.checkpw pw (bc.hashpw pw s) = true)
    (hinj : ∀ pw q s, bc.checkpw q (bc.hashpw pw s) = true → q = pw)
    (hwrong : wrongPassword ≠ p)
    (hsucc : (signup bc salt db u p e).1 = msgSignupSuccess) :
    login bc (signup bc salt db u p e).2 u p = msgLoginSuccess ∧
    login bc (signup bc salt db u p e).2 u wrongPassword = msgInvalidCredentials := by
  obtain ⟨h1, h2, husers⟩ := signup_success_inv bc salt db u p e hsucc
  have hfnone := users_find?_eq_none_of_any_eq_false h2
  have hfind : (signup bc salt db u p e).2.users.find? (fun r => r.username == u) =
      some ⟨db.nextUserId, u, bc.hashpw p salt, e⟩ := by
    rw [husers, List.find?_append, hfnone, Option.none_or]
    exact List.find?_cons_of_pos _ (by simp)
  have hwck : bc.checkpw wrongPassword (bc.hashpw p salt) = false := by
    cases hcw : bc.checkpw wrongPassword (bc.hashpw p salt)
    · rfl
    · exact absurd (hinj p wrongPassword salt hcw) hwrong
  constructor
  · simp [login, hfind, hck p salt]
  · simp [login, hfind, hwck]

/-- Witness for C4 with the concrete identity hash pair. -/
theorem c4_register_then_authenticate_witness :
    login idBcrypt (signup idBcrypt "s" emptyDB "alice" "pw" "a@b.c").2 "alice" "pw" =
      msgLoginSuccess ∧
    login idBcrypt (signup idBcrypt "s" emptyDB "alice" "pw" "a@b.c").2 "alice" "nope" =
      msgInvalidCredentials :=
  c4_register_then_authenticate idBcrypt "s" emptyDB "alice" "pw" "a@b.c" "nope"
    (fun pw s => by simp [idBcrypt])
    (fun pw q s h => eq_of_beq h)
    (by decide) (by decide)

/-! ### Claim C5 -/

/-- C5: registering the same username twice makes the second call fail
with the duplicate-username status, write nothing, and leave exactly one
row for that username in the user table. -/
theorem c5_duplicate_username (bc : Bcrypt) (salt salt2 : String) (db : DB)
    (u p e p2 e2 : String)
    (hsucc : (signup bc salt db u p e).1 = msgSignupSuccess) :
    (signup bc salt2 (signup bc salt db u p e).2 u p2 e2).1 = msgDuplicateUsername ∧
    (signup bc salt2 (signup bc salt db u p e).2 u p2 e2).2 = (signup bc salt db u p e).2 ∧
    ((signup bc salt db u p e).2.users.filter (fun r => r.username == u)).length = 1 := by
  obtain ⟨h1, h2, husers⟩ := signup_success_inv bc salt db u p e hsucc
  have hany : (signup bc salt db u p e).2.users.any (fun r => r.username == u) = true := by
    rw [husers, List.any_append]
    simp
  have hfilter : db.users.filter (fun r => r.username == u) = [] := by
    rw [List.filter_eq_nil_iff]
    intro a ha hau
    have : db.users.any (fun r => r.username == u) = true := List.any_eq_true.mpr ⟨a, ha, hau⟩
    rw [h2] at this
    exact absurd this (by decide)
  have hdup := signup_eq_duplicate bc salt2 (signup bc salt db u p e).2 u p2 e2 h1 hany
  refine ⟨by rw [hdup], by rw [hdup], ?_⟩
  rw [husers, List.filter_append, hfilter]
  simp

/-- Witness for C5 with the concrete identity hash pair. -/
theorem c5_duplicate_username_witness :
    (signup idBcrypt "t" (signup idBcrypt "s" emptyDB "alice" "pw" "a@b.c").2
        "alice" "pw2" "c@d.e").1 = msgDuplicateUsername ∧
    (signup idBcrypt "t" (signup idBcrypt "s" emptyDB "alice" "pw" "a@b.c").2
        "alice" "pw2" "c@d.e").2 = (signup idBcrypt "s" emptyDB "alice" "pw" "a@b.c").2 ∧
    ((signup idBcrypt "s" emptyDB "alice" "pw" "a@b.c").2.users.filter
        (fun r => r.username == "alice")).length = 1 :=
  c5_duplicate_username idBcrypt "s" "t" emptyDB "alice" "pw" "a@b.c" "pw2" "c@d.e" (by decide)

/-! ### Claim C6 -/

/-- C6: deleting by id on either ledger succeeds, removes exactly the
rows with that id, leaves every other row (and every other table)
unchanged, and deleting an absent id leaves the database exactly as it
was (the operation is total — nothing is raised). -/
theorem c6_delete_exact (db : DB) (id : Nat) :
    (delete_appointment db id).1 = msgAppointmentDeleted ∧
    (delete_medicine_reminder db id).1 = msgReminderDeleted ∧
    (∀ r : ApptRow, r ∈ (delete_appointment db id).2.appointments ↔
      r ∈ db.appointments ∧ r.id ≠ id) ∧
    (∀ r : RemRow, r ∈ (delete_medicine_reminder db id).2.reminders ↔
      r ∈ db.reminders ∧ r.id ≠ id) ∧
    (delete_appointment db id).2.reminders = db.reminders ∧
    (delete_appointment db id).2.users = db.users ∧
    (delete_appointment db id).2.profiles = db.profiles ∧
    (delete_medicine_reminder db id).2.appointments = db.appointments ∧
    (delete_medicine_reminder db id).2.users = db.users ∧
    (delete_medicine_reminder db id).2.profiles = db.profiles ∧
    ((∀ r ∈ db.appointments, r.id ≠ id) → (delete_appointment db id).2 = db) ∧
    ((∀ r ∈ db.reminders, r.id ≠ id) → (delete_medicine_reminder db id).2 = db) := by
  refine ⟨rfl, rfl, ?_, ?_, rfl, rfl, rfl, rfl, rfl, rfl, ?_, ?_⟩
  · intro r
    simp [delete_appointment, List.mem_filter]
  · intro r
    simp [delete_medicine_reminder, List.mem_filter]
  · intro habs
    have hf : db.appointments.filter (fun r => r.id != id) = db.appointments :=
      List.filter_eq_self.mpr (fun a ha => by simpa using habs a ha)
    simp only [delete_appointment, hf]
  · intro habs
    have hf : db.reminders.filter (fun r => r.id != id) = db.reminders :=
      List.filter_eq_self.mpr (fun a ha => by simpa using habs a ha)
    simp only [delete_medicine_reminder, hf]

/-- Witness for C6: deleting the absent id 99 leaves the fixture
database unchanged. -/
theorem c6_delete_exact_witness :
    (delete_appointment dbFixtureDelete 99).2 = dbFixtureDelete ∧
    (delete_medicine_reminder dbFixtureDelete 99).2 = dbFixtureDelete :=
  ⟨(c6_delete_exact dbFixtureDelete 99).2.2.2.2.2.2.2.2.2.2.1 (by decide),
   (c6_delete_exact dbFixtureDelete 99).2.2.2.2.2.2.2.2.2.2.2 (by decide)⟩

/-! ### Claim C9 -/

/-- C9: if the external text-generation call raises, `healthcare_chatbot`
returns — as ordinary content of a total function, never by raising — a
text that contains the error indicator `"Error"` and the underlying
fault's description. -/
theorem c9_gateway_error_as_content (bot : String → Except String String)
    (message e : String) (hfail : bot message = .error e) :
    healthcare_chatbot bot message = "Error: " ++ e ∧
    "Error".data <:+: (healthcare_chatbot bot message).data ∧
    e.data <:+: (healthcare_chatbot bot message).data := by
  have hres : healthcare_chatbot bot message = "Error: " ++ e := by
    rw [healthcare_chatbot, hfail]
  refine ⟨hres, ?_, ?_⟩
  · rw [hres]
    have hsplit : ("Error: " ++ e) = "Error" ++ (": " ++ e) := rfl
    rw [hsplit, String.data_append]
    exact (List.prefix_append _ _).isInfix
  · rw [hres, String.data_append]
    exact (List.suffix_append _ _).isInfix

/-- Witness for C9 at a concrete failing call. -/
theorem c9_gateway_error_as_content_witness :
    healthcare_chatbot (fun _ => .error "boom") "hi" = "Error: " ++ "boom" ∧
    "Error".data <:+: (healthcare_chatbot (fun _ => .error "boom") "hi").data ∧
    "boom".data <:+: (healthcare_chatbot (fun _ => .error "boom") "hi").data :=
  c9_gateway_error_as_content (fun _ => .error "boom") "hi" "boom" rfl

/-! ### Claim C10 -/

theorem infix_cons_head_skip (pre : List Char) {d : Char} {ds rest : List Char}
    (hpre : ∀ c ∈ pre, c ≠ d) (h : (d :: ds) <:+: (pre ++ rest)) :
    (d :: ds) <:+: rest := by
  induction pre with
  | nil => simpa using h
  | cons a pre ih =>
    obtain ⟨s, t, hst⟩ := h
    cases s with
    | nil =>
      rw [List.nil_append, List.cons_append] at hst
      injection hst with hd _
      exact absurd hd.symm (hpre a (List.mem_cons_self a pre))
    | cons b s' =>
      rw [List.cons_append, List.cons_append] at hst
      injection hst with _ htl
      exact ih (fun c hc => hpre c (List.mem_cons_of_mem a hc)) ⟨s', t, htl⟩

/-- C10: when the external call raises, the returned error text carries
no disclaimer — the fixed disclaimer string occurs in the result only if
it already occurs in the fault description itself (which is external
text, not something the error path appends). -/
theorem c10_error_response_has_no_disclaimer (bot : String → Except String String)
    (message e : String) (hfail : bot message = .error e)
    (hnd : ¬ disclaimer.data <:+: e.data) :
    ¬ disclaimer.data <:+: (healthcare_chatbot bot message).data := by
  intro h
  rw [healthcare_chatbot, hfail, String.data_append] at h
  have hd : disclaimer.data = '⚠' :: disclaimer.data.tail := rfl
  rw [hd] at h
  have h' := infix_cons_head_skip "Error: ".data (by decide) h
  rw [← hd] at h'
  exact hnd h'

/-- Witness for C10 at a concrete failing call. -/
theorem c10_error_response_has_no_disclaimer_witness :
    ¬ disclaimer.data <:+:
      (healthcare_chatbot (fun _ => .error "connection refused") "hi").data :=
  c10_error_response_has_no_disclaimer (fun _ => .error "connection refused") "hi"
    "connection refused" rfl (by decide)


/-! ### Round trip: `parseISO` recovers what `isoformat` renders -/

theorem isDigit_digitChar : ∀ k, k < 10 → (digitChar k).isDigit = true := by decide

theorem toNat_digitChar : ∀ k, k < 10 → (digitChar k).toNat = 48 + k := by decide

theorem digitsToNat_pad2 {n : Nat} (h : n < 100) : digitsToNat (pad2 n) = n := by
  simp only [digitsToNat, pad2, List.foldl]
  rw [toNat_digitChar (n / 10) (by omega), toNat_digitChar (n % 10) (by omega)]
  omega

theorem digitsToNat_pad4 {n : Nat} (h : n < 10000) : digitsToNat (pad4 n) = n := by
  simp only [digitsToNat, pad4, pad2, List.cons_append, List.nil_append, List.foldl]
  rw [toNat_digitChar (n / 100 / 10) (by omega), toNat_digitChar (n / 100 % 10) (by omega),
    toNat_digitChar (n % 100 / 10) (by omega), toNat_digitChar (n % 100 % 10) (by omega)]
  omega

theorem parseISO_isoformat (c : NaiveDT) (hv : c.valid = true) :
    parseISO (AwareDT.isoformat ⟨c, 0⟩) = some (c, 0) := by
  obtain ⟨y, mo, d, hh, mi, ss⟩ := c
  have hb : 1 ≤ y ∧ y ≤ 9999 ∧ 1 ≤ mo ∧ mo ≤ 12 ∧ 1 ≤ d ∧ d ≤ daysInMonth y mo ∧
      hh < 24 ∧ mi < 60 ∧ ss < 60 := by
    simpa [NaiveDT.valid, and_assoc] using hv
  obtain ⟨hy1, hy2, hmo1, hmo2, hd1, hd2, hhh, hmi, hss⟩ := hb
  have hdm : daysInMonth y mo ≤ 31 := by
    unfold daysInMonth
    split
    · split <;> omega
    · split <;> omega
  have h0 : digitChar 0 = '0' := rfl
  have hdata : (AwareDT.isoformat ⟨⟨y, mo, d, hh, mi, ss⟩, 0⟩).data =
      [digitChar (y / 100 / 10), digitChar (y / 100 % 10), digitChar (y % 100 / 10),
       digitChar (y % 100 % 10), '-', digitChar (mo / 10), digitChar (mo % 10), '-',
       digitChar (d / 10), digitChar (d % 10), 'T', digitChar (hh / 10), digitChar (hh % 10),
       ':', digitChar (mi / 10), digitChar (mi % 10), ':', digitChar (ss / 10),
       digitChar (ss % 10), '+', '0', '0', ':', '0', '0'] := by
    simp [AwareDT.isoformat, isoChars, dateChars, timeChars, offsetChars, pad4, pad2, h0]
  rw [parseISO, hdata]
  have hall : ([digitChar (y / 100 / 10), digitChar (y / 100 % 10), digitChar (y % 100 / 10),
      digitChar (y % 100 % 10), digitChar (mo / 10), digitChar (mo % 10), digitChar (d / 10),
      digitChar (d % 10), digitChar (hh / 10), digitChar (hh % 10), digitChar (mi / 10),
      digitChar (mi % 10), digitChar (ss / 10), digitChar (ss % 10), '0', '0', '0',
      '0'].all Char.isDigit) = true := by
    rw [List.all_eq_true]
    intro x hx
    fin_cases hx <;> first
      | exact isDigit_digitChar _ (by omega)
      | decide
  show (if _ then _ else _) = _
  rw [if_pos ⟨hall, Or.inl rfl⟩]
  show (if _ then _ else _) = _
  rw [show [digitChar (y / 100 / 10), digitChar (y / 100 % 10), digitChar (y % 100 / 10),
      digitChar (y % 100 % 10)] = pad4 y from rfl]
  rw [show [digitChar (mo / 10), digitChar (mo % 10)] = pad2 mo from rfl]
  rw [show [digitChar (d / 10), digitChar (d % 10)] = pad2 d from rfl]
  rw [show [digitChar (hh / 10), digitChar (hh % 10)] = pad2 hh from rfl]
  rw [show [digitChar (mi / 10), digitChar (mi % 10)] = pad2 mi from rfl]
  rw [show [digitChar (ss / 10), digitChar (ss % 10)] = pad2 ss from rfl]
  rw [digitsToNat_pad4 (by omega), digitsToNat_pad2 (by omega), digitsToNat_pad2 (by omega),
    digitsToNat_pad2 (by omega), digitsToNat_pad2 (by omega), digitsToNat_pad2 (by omega)]
  have hoffn : digitsToNat ['0', '0'] * 60 + digitsToNat ['0', '0'] = 0 := by decide
  rw [hoffn]
  rw [if_neg (by decide : ¬ ('+' : Char) = '-')]
  rw [if_pos hv]
  rfl

theorem isCanonicalUTC_isoformat {c : NaiveDT} (hv : c.valid = true) :
    isCanonicalUTC (AwareDT.isoformat ⟨c, 0⟩) = true := by
  unfold isCanonicalUTC
  rw [parseISO_isoformat c hv]
  simp

theorem sqliteDatetime_of_canonical {s : String} {c : NaiveDT}
    (hp : parseISO s = some (c, 0)) :
    sqliteDatetime s = some (String.mk (sqlKeyChars c)) := by
  unfold sqliteDatetime
  rw [hp]
  simp

/-! ### Claim C1 -/

/-- C1: booking with a naive timestamp stores exactly the
specification's value — the clock interpreted in the fixed default
timezone Asia/Kolkata (UTC+5:30) and converted to UTC, rendered
ISO-8601 (`specNaiveBookingUTC`, written from the spec's words) — and
the list query returns that UTC value; in particular booking naive
2025-06-01 10:00 stores "2025-06-01T04:30:00+00:00". -/
theorem c1_book_naive_utc (db : DB) (patient doctor : String) (c : NaiveDT) :
    book_appointment db patient doctor (.naive c) =
      (msgAppointmentBooked,
       { db with
          appointments := db.appointments ++
            [⟨db.nextApptId, patient, doctor, specNaiveBookingUTC c⟩],
          nextApptId := db.nextApptId + 1 }) ∧
    specNaiveBookingUTC ⟨2025, 6, 1, 10, 0, 0⟩ = "2025-06-01T04:30:00+00:00" ∧
    list_appointments
        (book_appointment emptyDB patient doctor (.naive ⟨2025, 6, 1, 10, 0, 0⟩)).2 patient =
      [(1, doctor, some "2025-06-01 04:30:00")] ∧
    ((c.shift (-330)).valid = true →
      list_appointments (book_appointment emptyDB patient doctor (.naive c)).2 patient =
        [(1, doctor, some (String.mk (sqlKeyChars (c.shift (-330)))))]) := by
  refine ⟨rfl, by decide, ?_, ?_⟩
  · have hstored : (pyAstimezoneAware 0 (pytzLocalizeKolkata ⟨2025, 6, 1, 10, 0, 0⟩)).isoformat
        = "2025-06-01T04:30:00+00:00" := by decide
    have hsql : sqliteDatetime "2025-06-01T04:30:00+00:00" = some "2025-06-01 04:30:00" := by
      decide
    simp [book_appointment, list_appointments, listAppointmentsRows, emptyDB, hstored, hsql,
      List.insertionSort]
  · intro hv
    have hp : parseISO (specNaiveBookingUTC c) = some (c.shift (-330), 0) :=
      parseISO_isoformat _ hv
    have hsql := sqliteDatetime_of_canonical hp
    have hstored : (pyAstimezoneAware 0 (pytzLocalizeKolkata c)).isoformat =
        specNaiveBookingUTC c := rfl
    simp [book_appointment, list_appointments, listAppointmentsRows, emptyDB, hstored, hsql,
      List.insertionSort]

/-- Witness for C1's general retrieval conjunct at the example date. -/
theorem c1_book_naive_utc_witness :
    list_appointments
        (book_appointment emptyDB "pat" "Dr. Smith (Cardiology)"
          (.naive ⟨2025, 6, 1, 10, 0, 0⟩)).2 "pat" =
      [(1, "Dr. Smith (Cardiology)",
        some (String.mk (sqlKeyChars (NaiveDT.shift ⟨2025, 6, 1, 10, 0, 0⟩ (-330)))))] :=
  (c1_book_naive_utc emptyDB "pat" "Dr. Smith (Cardiology)" ⟨2025, 6, 1, 10, 0, 0⟩).2.2.2
    (by decide)

/-! ### Claim C2 -/

/-- C2 fails on the code: for a *naive* timestamp the stored reminder
depends on the system/server timezone.  If the claim held — naive clocks
interpreted in the fixed default timezone, never the system timezone —
these two runs of `set_medicine_reminder` on the same input under system
offsets +05:30 and +00:00 would store identical rows; instead the second
stores 15:30 IST, the 10:00 system-local clock shifted into IST. -/
theorem c2_counterexample :
    (set_medicine_reminder 330 emptyDB "pat" "aspirin"
        (.naive ⟨2025, 6, 1, 10, 0, 0⟩)).2.reminders ≠
      (set_medicine_reminder 0 emptyDB "pat" "aspirin"
        (.naive ⟨2025, 6, 1, 10, 0, 0⟩)).2.reminders ∧
    (set_medicine_reminder 330 emptyDB "pat" "aspirin"
        (.naive ⟨2025, 6, 1, 10, 0, 0⟩)).2.reminders =
      [⟨1, "pat", "aspirin", "2025-06-01T10:00:00+05:30", false⟩] ∧
    (set_medicine_reminder 0 emptyDB "pat" "aspirin"
        (.naive ⟨2025, 6, 1, 10, 0, 0⟩)).2.reminders =
      [⟨1, "pat", "aspirin", "2025-06-01T15:30:00+05:30", false⟩] := by
  refine ⟨by decide, by decide, by decide⟩

/-- C2 (amended): `set_medicine_reminder` stores the timestamp converted
to the fixed local timezone Asia/Kolkata (offset +05:30 — not UTC), and
`listForPatient` returns exactly that stored value; for an *aware*
timestamp the result is independent of the system timezone, but a
*naive* timestamp's clock is interpreted in the system/server local
timezone (Python `astimezone` semantics), not the fixed default, so the
stored instant varies with the deployment environment. -/
theorem c2_schedule_stores_ist_amended (sysOff sysOff' : Int) (db : DB)
    (pat med : String) (t : PyDateTime) (a : AwareDT) (c : NaiveDT) :
    (set_medicine_reminder sysOff db pat med t).1 = msgReminderSet ∧
    (set_medicine_reminder sysOff db pat med t).2.reminders =
      db.reminders ++ [⟨db.nextRemId, pat, med,
        (pyAstimezone sysOff kolkataOffset t).isoformat, false⟩] ∧
    (pyAstimezone sysOff kolkataOffset t).offset = 330 ∧
    pyAstimezone sysOff kolkataOffset (.aware a) =
      pyAstimezone sysOff' kolkataOffset (.aware a) ∧
    (pyAstimezone sysOff kolkataOffset (.naive c)).clock = c.shift (330 - sysOff) ∧
    list_reminders (set_medicine_reminder sysOff emptyDB pat med t).2 pat =
      [(1, med, (pyAstimezone sysOff kolkataOffset t).isoformat)] := by
  refine ⟨rfl, rfl, ?_, rfl, rfl, ?_⟩
  · cases t <;> rfl
  · simp [list_reminders, listRemindersRows, set_medicine_reminder, emptyDB,
      List.insertionSort]

/-! ### Claim C7: lexicographic order bridge -/

theorem lex_irrefl : ∀ l : List Char, ¬ List.Lex (· < ·) l l := by
  intro l
  induction l with
  | nil => intro h; cases h
  | cons x l ih =>
    intro h
    cases h with
    | cons h' => exact ih h'
    | rel h' => exact absurd h' (lt_irrefl x)

theorem lex_cons_iff {x : Char} {u v : List Char} :
    List.Lex (· < ·) (x :: u) (x :: v) ↔ List.Lex (· < ·) u v := by
  constructor
  · intro h
    cases h with
    | cons h' => exact h'
    | rel h' => exact absurd h' (lt_irrefl x)
  · exact List.Lex.cons

theorem lex_append_iff {u v : List Char} : ∀ {a b : List Char}, a.length = b.length →
    (List.Lex (· < ·) (a ++ u) (b ++ v) ↔
      List.Lex (· < ·) a b ∨ (a = b ∧ List.Lex (· < ·) u v)) := by
  intro a
  induction a with
  | nil =>
    intro b hb
    have hb' : b = [] := by
      cases b with
      | nil => rfl
      | cons y b' => simp at hb
    subst hb'
    simp only [List.nil_append]
    constructor
    · intro h
      exact Or.inr ⟨by trivial, h⟩
    · rintro (h | ⟨-, h⟩)
      · cases h
      · exact h
  | cons x a ih =>
    intro b hb
    cases b with
    | nil => simp at hb
    | cons y b' =>
      simp only [List.length_cons, Nat.succ.injEq] at hb
      simp only [List.cons_append]
      constructor
      · intro h
        cases h with
        | rel hr => exact Or.inl (List.Lex.rel hr)
        | cons h' =>
          rcases (ih hb).mp h' with h'' | ⟨heq, huv⟩
          · exact Or.inl (List.Lex.cons h'')
          · exact Or.inr ⟨by rw [heq], huv⟩
      · rintro (h | ⟨heq, huv⟩)
        · cases h with
          | rel hr => exact List.Lex.rel hr
          | cons h'' => exact List.Lex.cons ((ih hb).mpr (Or.inl h''))
        · injection heq with hxy hab
          subst hxy
          subst hab
          exact List.Lex.cons ((ih rfl).mpr (Or.inr ⟨rfl, huv⟩))

theorem charListLtb_iff : ∀ a b : List Char, charListLtb a b = true ↔ List.Lex (· < ·) a b := by
  intro a
  induction a with
  | nil =>
    intro b
    cases b with
    | nil =>
      constructor
      · intro h; exact absurd h (by decide)
      · intro h; cases h
    | cons y b' => exact ⟨fun _ => List.Lex.nil, fun _ => rfl⟩
  | cons x a ih =>
    intro b
    cases b with
    | nil =>
      constructor
      · intro h; exact absurd h (by simp [charListLtb])
      · intro h; cases h
    | cons y b' =>
      simp only [charListLtb]
      by_cases hxy : x < y
      · rw [if_pos hxy]
        exact ⟨fun _ => List.Lex.rel hxy, fun _ => rfl⟩
      · rw [if_neg hxy]
        by_cases hyx : y < x
        · rw [if_pos hyx]
          constructor
          · intro h; exact absurd h (by simp)
          · intro h
            cases h with
            | rel h' => exact absurd h' hxy
            | cons h' => exact absurd hyx (lt_irrefl x)
        · rw [if_neg hyx]
          have hxy' : x = y := le_antisymm (le_of_not_lt hyx) (le_of_not_lt hxy)
          subst hxy'
          rw [ih b']
          exact lex_cons_iff.symm

theorem strLeb_iff_le {s t : String} : strLeb s t = true ↔ s ≤ t := by
  have h1 : strLeb s t = true ↔ ¬ charListLtb t.data s.data = true := by
    cases hb : charListLtb t.data s.data <;> simp [strLeb, hb]
  rw [h1, charListLtb_iff]
  constructor
  · intro h
    exact le_of_not_lt (fun hlt => h (String.lt_iff_toList_lt.mp hlt))
  · intro h hlex
    exact absurd (String.lt_iff_toList_lt.mpr hlex) (not_lt.mpr h)

theorem optKeyLeb_total : ∀ o1 o2 : Option String,
    optKeyLeb o1 o2 = true ∨ optKeyLeb o2 o1 = true := by
  intro o1 o2
  cases o1 with
  | none => exact Or.inl rfl
  | some a =>
    cases o2 with
    | none => exact Or.inr rfl
    | some b =>
      rcases le_total a b with h | h
      · exact Or.inl (strLeb_iff_le.mpr h)
      · exact Or.inr (strLeb_iff_le.mpr h)

theorem optKeyLeb_trans : ∀ {o1 o2 o3 : Option String},
    optKeyLeb o1 o2 = true → optKeyLeb o2 o3 = true → optKeyLeb o1 o3 = true := by
  intro o1 o2 o3 h12 h23
  cases o1 with
  | none => rfl
  | some a =>
    cases o2 with
    | none => exact absurd h12 (by simp [optKeyLeb])
    | some b =>
      cases o3 with
      | none => exact absurd h23 (by simp [optKeyLeb])
      | some c =>
        exact strLeb_iff_le.mpr (le_trans (strLeb_iff_le.mp h12) (strLeb_iff_le.mp h23))

theorem iso_lt_iff_key_lt (c1 c2 : NaiveDT) :
    List.Lex (· < ·) (isoChars ⟨c1, 0⟩) (isoChars ⟨c2, 0⟩) ↔
      List.Lex (· < ·) (sqlKeyChars c1) (sqlKeyChars c2) := by
  have hdl : (dateChars c1).length = (dateChars c2).length := rfl
  have htl : (timeChars c1).length = (timeChars c2).length := rfl
  rw [show isoChars ⟨c1, 0⟩ = dateChars c1 ++ 'T' :: (timeChars c1 ++ offsetChars 0) from rfl,
      show isoChars ⟨c2, 0⟩ = dateChars c2 ++ 'T' :: (timeChars c2 ++ offsetChars 0) from rfl,
      show sqlKeyChars c1 = dateChars c1 ++ ' ' :: timeChars c1 from rfl,
      show sqlKeyChars c2 = dateChars c2 ++ ' ' :: timeChars c2 from rfl]
  rw [lex_append_iff hdl, lex_append_iff hdl]
  apply or_congr Iff.rfl
  apply and_congr Iff.rfl
  rw [lex_cons_iff, lex_cons_iff]
  constructor
  · intro h
    rcases (lex_append_iff htl).mp h with h' | ⟨-, hoff⟩
    · exact h'
    · exact absurd hoff (lex_irrefl _)
  · intro h
    exact (lex_append_iff htl).mpr (Or.inl h)

theorem stored_lt_iff_key_lt (c1 c2 : NaiveDT) :
    AwareDT.isoformat ⟨c1, 0⟩ < AwareDT.isoformat ⟨c2, 0⟩ ↔
      String.mk (sqlKeyChars c1) < String.mk (sqlKeyChars c2) := by
  rw [String.lt_iff_toList_lt, String.lt_iff_toList_lt]
  exact iso_lt_iff_key_lt c1 c2

theorem canonical_elim {s : String} (h : isCanonicalUTC s = true) :
    ∃ c : NaiveDT, parseISO s = some (c, 0) ∧ s = AwareDT.isoformat ⟨c, 0⟩ := by
  unfold isCanonicalUTC at h
  cases hp : parseISO s with
  | none => rw [hp] at h; simp at h
  | some co =>
    obtain ⟨c, off⟩ := co
    rw [hp] at h
    simp only [Bool.and_eq_true, beq_iff_eq] at h
    obtain ⟨hoff, hs⟩ := h
    subst hoff
    exact ⟨c, rfl, hs⟩

theorem apptRel_implies_le {r1 r2 : ApptRow}
    (h1 : isCanonicalUTC r1.appointment_datetime = true)
    (h2 : isCanonicalUTC r2.appointment_datetime = true)
    (h : apptRel r1 r2) : r1.appointment_datetime ≤ r2.appointment_datetime := by
  obtain ⟨c1, hp1, hs1⟩ := canonical_elim h1
  obtain ⟨c2, hp2, hs2⟩ := canonical_elim h2
  have h' : optKeyLeb (sqliteDatetime r1.appointment_datetime)
      (sqliteDatetime r2.appointment_datetime) = true := h
  rw [sqliteDatetime_of_canonical hp1, sqliteDatetime_of_canonical hp2] at h'
  have h'' : strLeb (String.mk (sqlKeyChars c1)) (String.mk (sqlKeyChars c2)) = true := h'
  rw [strLeb_iff_le] at h''
  rw [hs1, hs2]
  exact le_of_not_lt
    (fun hlt => absurd ((stored_lt_iff_key_lt c2 c1).mp hlt) (not_lt.mpr h''))

/-- C7: for every database state (however the rows were inserted) and
every patient, the appointment list query returns rows ascending by the
stored timestamp (given that the stored texts are the canonical UTC
strings `book_appointment` writes), and the reminder list query returns
rows ascending by the stored timestamp. -/
theorem c7_listForPatient_sorted (db : DB) (patient : String)
    (hcanon : ∀ r ∈ db.appointments, isCanonicalUTC r.appointment_datetime = true) :
    List.Sorted (fun r1 r2 : ApptRow => r1.appointment_datetime ≤ r2.appointment_datetime)
      (listAppointmentsRows db patient) ∧
    List.Sorted (fun r1 r2 : RemRow => r1.reminder_time ≤ r2.reminder_time)
      (listRemindersRows db patient) := by
  constructor
  · haveI : IsTotal ApptRow apptRel := ⟨fun _ _ => optKeyLeb_total _ _⟩
    haveI : IsTrans ApptRow apptRel := ⟨fun _ _ _ => optKeyLeb_trans⟩
    have hs := List.sorted_insertionSort apptRel
      (db.appointments.filter (fun r => r.patient_name == patient))
    have hmem : ∀ r ∈ listAppointmentsRows db patient, r ∈ db.appointments := by
      intro r hr
      have hsub := (List.perm_insertionSort apptRel
        (db.appointments.filter (fun r => r.patient_name == patient))).subset hr
      exact (List.mem_filter.mp hsub).1
    exact List.Pairwise.imp_of_mem
      (fun {a b} ha hb hab =>
        apptRel_implies_le (hcanon a (hmem a ha)) (hcanon b (hmem b hb)) hab) hs
  · haveI : IsTotal RemRow remRel := ⟨fun a b => by
      simp only [remRel, strLeb_iff_le]
      exact le_total _ _⟩
    haveI : IsTrans RemRow remRel := ⟨fun a b c => by
      simp only [remRel, strLeb_iff_le]
      exact le_trans⟩
    have hs := List.sorted_insertionSort remRel
      (db.reminders.filter (fun r => r.patient_name == patient))
    exact hs.imp (fun {a b} h => strLeb_iff_le.mp h)

/-- Witness for C7 on a fixture inserted in descending time order. -/
theorem c7_listForPatient_sorted_witness :
    List.Sorted (fun r1 r2 : ApptRow => r1.appointment_datetime ≤ r2.appointment_datetime)
      (listAppointmentsRows dbFixtureSort "pat") ∧
    List.Sorted (fun r1 r2 : RemRow => r1.reminder_time ≤ r2.reminder_time)
      (listRemindersRows dbFixtureSort "pat") :=
  c7_listForPatient_sorted dbFixtureSort "pat" (by decide)

/-! ### Claim C8 -/

theorem profiles_find?_after_upsert (l : List ProfileRow) (u : String) (row : ProfileRow)
    (hrow : row.username = u) :
    (l.filter (fun r => r.username != u) ++ [row]).find? (fun r => r.username == u) =
      some row := by
  have hnone : (l.filter (fun r => r.username != u)).find? (fun r => r.username == u) =
      none := by
    rw [List.find?_eq_none]
    intro x hx hxu
    have h2 := (List.mem_filter.mp hx).2
    rw [bne_iff_ne] at h2
    exact h2 (eq_of_beq hxu)
  rw [List.find?_append, hnone, Option.none_or]
  exact List.find?_cons_of_pos _ (by rw [hrow]; simp)

/-- C8: for a username that has a profile row, saving only the picture
replaces the entire row — every text column of the resulting row is NULL
— and saving only the text fields replaces the entire row — the stored
picture becomes NULL; composing the two in either order therefore loses
the other call's data.  (The saved picture is assumed non-empty:
`get_profile_picture` treats the empty blob as falsy, like the source.) -/
theorem c8_profile_upsert_clobbers (db : DB) (u : String) (pic : List Nat)
    (fn : String) (age : Nat) (mh al md bt : String) (hgt wgt : Nat)
    (hpic : pic ≠ [])
    (_hrow : (db.profiles.find? (fun r => r.username == u)).isSome = true) :
    (upsert_profile_picture db u pic).profiles.find? (fun r => r.username == u) =
      some ⟨db.nextProfileId, u, none, none, none, none, none, none, none, none,
        some pic⟩ ∧
    get_profile_picture (upsert_profile_picture db u pic) u = some pic ∧
    (upsert_profile_form db u fn age mh al md bt hgt wgt).profiles.find?
        (fun r => r.username == u) =
      some ⟨db.nextProfileId, u, some fn, some age, some mh, some al, some md, some bt,
        some hgt, some wgt, none⟩ ∧
    get_profile_picture
        (upsert_profile_form (upsert_profile_picture db u pic) u fn age mh al md bt hgt wgt)
        u = none ∧
    (upsert_profile_picture (upsert_profile_form db u fn age mh al md bt hgt wgt) u
        pic).profiles.find? (fun r => r.username == u) =
      some ⟨db.nextProfileId + 1, u, none, none, none, none, none, none, none, none,
        some pic⟩ := by
  have hp1 : (upsert_profile_picture db u pic).profiles.find? (fun r => r.username == u) =
      some ⟨db.nextProfileId, u, none, none, none, none, none, none, none, none,
        some pic⟩ :=
    profiles_find?_after_upsert db.profiles u _ rfl
  have hp2 : (upsert_profile_form (upsert_profile_picture db u pic) u fn age mh al md bt
        hgt wgt).profiles.find? (fun r => r.username == u) =
      some ⟨(upsert_profile_picture db u pic).nextProfileId, u, some fn, some age, some mh,
        some al, some md, some bt, some hgt, some wgt, none⟩ :=
    profiles_find?_after_upsert (upsert_profile_picture db u pic).profiles u _ rfl
  have hp3 : (upsert_profile_picture (upsert_profile_form db u fn age mh al md bt hgt wgt)
        u pic).profiles.find? (fun r => r.username == u) =
      some ⟨(upsert_profile_form db u fn age mh al md bt hgt wgt).nextProfileId, u, none,
        none, none, none, none, none, none, none, some pic⟩ :=
    profiles_find?_after_upsert (upsert_profile_form db u fn age mh al md bt hgt wgt).profiles
      u _ rfl
  refine ⟨hp1, ?_, profiles_find?_after_upsert db.profiles u _ rfl, ?_, hp3⟩
  · simp [get_profile_picture, hp1, hpic]
  · simp [get_profile_picture, hp2]

/-- Witness for C8 on a fixture with a fully filled profile row. -/
theorem c8_profile_upsert_clobbers_witness :
    get_profile_picture (upsert_profile_picture dbFixtureProfile "alice" [9, 9]) "alice" =
      some [9, 9] ∧
    get_profile_picture
        (upsert_profile_form (upsert_profile_picture dbFixtureProfile "alice" [9, 9])
          "alice" "Alice A" 30 "none" "pollen" "aspirin" "O+" 170 60) "alice" = none :=
  ⟨(c8_profile_upsert_clobbers dbFixtureProfile "alice" [9, 9] "Alice A" 30 "none" "pollen"
      "aspirin" "O+" 170 60 (by decide) (by decide)).2.1,
   (c8_profile_upsert_clobbers dbFixtureProfile "alice" [9, 9] "Alice A" 30 "none" "pollen"
      "aspirin" "O+" 170 60 (by decide) (by decide)).2.2.2.1⟩
